import Mathlib

/-!
Shallow embedding of the EduFlow-Automator image compositing core
(`src/processors/image_editor.py`, `src/generators/pexels_client.py`,
`config/settings.py`) and proofs about its typography fitter, cover
resize, background resolution chain, gradient synthesis and carousel
orchestration.

Conventions: Python ints are modelled as `Int` (or `Nat` where the source
value is a dimension), Python float arithmetic is modelled exactly with
`ℚ`, fallible calls return `Option`/`Except`, and the filesystem and the
external Pexels collaborator are abstracted as explicit environments
(functions from paths/queries to outcomes) threaded through the
definitions.  Pixel-level raster effects (blur, LANCZOS resampling,
alpha compositing of pixel data) are modelled at the level the claims
need: image dimensions plus, for the synthetic gradient, the exact
per-pixel value computed by the source loop.
-/

namespace EduFlow

/-- Python `int(...)` truncation toward zero of a real value, on the exact
rational model of the float arithmetic used by `image_editor.py`. -/
def pyInt (q : ℚ) : Int :=
  if 0 ≤ q then ⌊q⌋ else ⌈q⌉

/-- Python `str.split()` with no arguments: split on whitespace, discarding
empty fragments (`_wrap_text`: `words = text.split()`). -/
def pySplit (text : String) : List String :=
  (text.split Char.isWhitespace).filter (fun s => !s.isEmpty)

/-- Loop of `ImageEditor._wrap_text`: greedily extend `current` with the next
whitespace-delimited word while the measured width of the candidate line stays
within `maxWidth`; once a word would overflow, commit `current` (if non-empty)
and start a new line with that word.  `width` abstracts
`_text_width(line, font)`, the glyph-metric pixel width of a line in the
already-loaded font. -/
def wrapTextGo (width : String → Int) (maxWidth : Int) :
    List String → List String → String → List String
  | [], lines, current =>
      if current.isEmpty then lines.reverse else (current :: lines).reverse
  | w :: ws, lines, current =>
      let test := (current ++ " " ++ w).trim
      if width test ≤ maxWidth then
        wrapTextGo width maxWidth ws lines test
      else if current.isEmpty then
        wrapTextGo width maxWidth ws lines w
      else
        wrapTextGo width maxWidth ws (current :: lines) w

/-- Model of `ImageEditor._wrap_text(text, font, max_width)`. -/
def wrapText (width : String → Int) (text : String) (maxWidth : Int) :
    List String :=
  wrapTextGo width maxWidth (pySplit text) [] ""

/-- The `while size >= min_size` loop of `ImageEditor._fit_font`.  A font
handle is represented by its pixel size (handles are rebuilt per candidate
size in the source); `measure size line` abstracts
`_text_width(line, _load_font(font_path, size))`.  The local variable
`lines = self._wrap_text(text, font, max_width)` of the source is inlined. -/
def fitFontGo (measure : Int → String → Int) (text : String) (maxWidth : Int)
    (minSize : Int) (maxLines : Nat) (size : Int) : Int :=
  if h : minSize ≤ size then
    if (wrapText (measure size) text maxWidth).length ≤ maxLines ∧
        ∀ l ∈ wrapText (measure size) text maxWidth,
          measure size l ≤ maxWidth then
      size
    else
      fitFontGo measure text maxWidth minSize maxLines (size - 2)
  else
    minSize
termination_by (size + 2 - minSize).toNat
decreasing_by
  omega

/-- Model of `ImageEditor._fit_font`: decreasing search from `start_size` down to
`min_size` in steps of 2, accepting the first size whose greedy wrap has at
most `max_lines` lines all of measured width at most `max_width`; if the loop
exhausts the range it falls back to a font loaded at `min_size`. -/
def fitFont (measure : Int → String → Int) (text : String) (maxWidth : Int)
    (startSize minSize : Int) (maxLines : Nat) : Int :=
  fitFontGo measure text maxWidth minSize maxLines startSize

theorem fitFontGo_spec (measure : Int → String → Int) (text : String)
    (maxWidth minSize : Int) (maxLines : Nat) :
    ∀ (n : Nat) (size : Int), (size + 2 - minSize).toNat ≤ n →
      minSize ≤ fitFontGo measure text maxWidth minSize maxLines size ∧
      fitFontGo measure text maxWidth minSize maxLines size ≤ max size minSize ∧
      ((∀ l ∈ wrapText
            (measure (fitFontGo measure text maxWidth minSize maxLines size))
            text maxWidth,
          measure (fitFontGo measure text maxWidth minSize maxLines size) l
            ≤ maxWidth)
        ∨ fitFontGo measure text maxWidth minSize maxLines size = minSize) := by
  intro n
  induction n with
  | zero =>
      intro size hsz
      have hlt : ¬ minSize ≤ size := by omega
      have hval : fitFontGo measure text maxWidth minSize maxLines size
          = minSize := by
        rw [fitFontGo.eq_def, dif_neg hlt]
      rw [hval]
      exact ⟨le_refl _, le_max_right _ _, Or.inr rfl⟩
  | succ n ih =>
      intro size hsz
      by_cases hge : minSize ≤ size
      · by_cases hfit :
            (wrapText (measure size) text maxWidth).length ≤ maxLines ∧
            ∀ l ∈ wrapText (measure size) text maxWidth,
              measure size l ≤ maxWidth
        · have hval : fitFontGo measure text maxWidth minSize maxLines size
              = size := by
            rw [fitFontGo.eq_def, dif_pos hge, if_pos hfit]
          rw [hval]
          exact ⟨hge, le_max_left _ _, Or.inl hfit.2⟩
        · have hval : fitFontGo measure text maxWidth minSize maxLines size
              = fitFontGo measure text maxWidth minSize maxLines (size - 2) := by
            rw [fitFontGo.eq_def, dif_pos hge, if_neg hfit]
          have hrec := ih (size - 2) (by omega)
          rw [hval]
          refine ⟨hrec.1, ?_, hrec.2.2⟩
          exact le_trans hrec.2.1 (max_le_max (by omega) (le_refl minSize))
      · have hval : fitFontGo measure text maxWidth minSize maxLines size
            = minSize := by
          rw [fitFontGo.eq_def, dif_neg hge]
        rw [hval]
        exact ⟨le_refl _, le_max_right _ _, Or.inr rfl⟩

/-- C1: for every text, box width W > 0, start size and min size, the size
chosen by `_fit_font` is such that every line of the greedy word-wrap of the
text at that size has measured pixel width at most W, or else the chosen size
equals `min_size` (overflow accepted at the floor, not an error). -/
theorem fit_font_lines_fit_or_floor (measure : Int → String → Int)
    (text : String) (maxWidth startSize minSize : Int) (maxLines : Nat)
    (hW : 0 < maxWidth) :
    (∀ l ∈ wrapText
          (measure (fitFont measure text maxWidth startSize minSize maxLines))
          text maxWidth,
        measure (fitFont measure text maxWidth startSize minSize maxLines) l
          ≤ maxWidth)
      ∨ fitFont measure text maxWidth startSize minSize maxLines = minSize :=
  (fitFontGo_spec measure text maxWidth minSize maxLines
    (startSize + 2 - minSize).toNat startSize (le_refl _)).2.2

/-- Witness for C1 at a concrete input. -/
theorem fit_font_lines_fit_or_floor_witness :
    (∀ l ∈ wrapText (fun _ => (0 : Int)) "ola mundo" 50,
        (0 : Int) ≤ 50)
      ∨ fitFont (fun _ _ => (0 : Int)) "ola mundo" 50 40 20 3 = 20 := by
  exact fit_font_lines_fit_or_floor (fun _ _ => (0 : Int)) "ola mundo" 50 40 20
    3 (by norm_num)

/-- C2 (counterexample): called with `start_size = 10 < min_size = 20`,
`_fit_font` returns 20, which is not in the closed interval [20, 10]
(the interval is empty), refuting the claim as universally stated. -/
theorem fit_font_size_range_cex :
    fitFont (fun sz _ => sz) "oi" 100 10 20 3 = 20 ∧
      ¬ (fitFont (fun sz _ => sz) "oi" 100 10 20 3 ≤ 10) := by
  have h : fitFont (fun sz _ => sz) "oi" 100 10 20 3 = 20 := by
    show fitFontGo (fun sz _ => sz) "oi" 100 20 3 10 = 20
    rw [fitFontGo.eq_def, dif_neg (show ¬ ((20 : Int) ≤ 10) by norm_num)]
  exact ⟨h, by rw [h]; norm_num⟩

/-- C2 (amended): whenever `min_size ≤ start_size`, the size returned by
`_fit_font` lies in the closed interval [`min_size`, `start_size`]. -/
theorem fit_font_size_in_range (measure : Int → String → Int) (text : String)
    (maxWidth startSize minSize : Int) (maxLines : Nat)
    (hle : minSize ≤ startSize) :
    minSize ≤ fitFont measure text maxWidth startSize minSize maxLines ∧
      fitFont measure text maxWidth startSize minSize maxLines ≤ startSize := by
  have h := fitFontGo_spec measure text maxWidth minSize maxLines
    (startSize + 2 - minSize).toNat startSize (le_refl _)
  exact ⟨h.1, le_trans h.2.1 (by omega)⟩

/-- Witness for the amended C2 at a concrete input. -/
theorem fit_font_size_in_range_witness :
    (20 : Int) ≤ fitFont (fun sz _ => sz) "oi" 100 40 20 3 ∧
      fitFont (fun sz _ => sz) "oi" 100 40 20 3 ≤ 40 :=
  fit_font_size_in_range (fun sz _ => sz) "oi" 100 40 20 3 (by norm_num)

/-- Image dimensions in pixels (`PIL.Image.size`). -/
structure Dims where
  w : Nat
  h : Nat
deriving DecidableEq

/-- Model of `PIL.Image.crop((left, top, right, bottom))` at the level of dimensions:
PIL always returns an image of exactly the box size
`(right - left) × (bottom - top)`, padding any region outside the source. -/
def cropDims (left top right bottom : Int) : Dims :=
  ⟨(right - left).toNat, (bottom - top).toNat⟩

/-- Scale factor of `ImageEditor._cover_resize`:
`scale = max(target_w / w, target_h / h)`, with the source's float division
modelled exactly over `ℚ`. -/
def coverScale (d : Dims) (targetW targetH : Nat) : ℚ :=
  max ((targetW : ℚ) / d.w) ((targetH : ℚ) / d.h)

/-- The `nw = int(w * scale)` of `_cover_resize`. -/
def coverNW (d : Dims) (targetW targetH : Nat) : Int :=
  pyInt ((d.w : ℚ) * coverScale d targetW targetH)

/-- The `nh = int(h * scale)` of `_cover_resize`. -/
def coverNH (d : Dims) (targetW targetH : Nat) : Int :=
  pyInt ((d.h : ℚ) * coverScale d targetW targetH)

/-- The `left = (nw - target_w) // 2` of `_cover_resize` (floor division). -/
def coverLeft (d : Dims) (targetW targetH : Nat) : Int :=
  Int.fdiv (coverNW d targetW targetH - targetW) 2

/-- The `top = (nh - target_h) // 2` of `_cover_resize` (floor division). -/
def coverTop (d : Dims) (targetW targetH : Nat) : Int :=
  Int.fdiv (coverNH d targetW targetH - targetH) 2

/-- Model of `ImageEditor._cover_resize` at the level of dimensions: resize the source
to `(nw, nh)` (LANCZOS resampling acts pixel-wise and keeps the requested
dimensions) and crop the centered `target_w × target_h` box. -/
def coverResize (d : Dims) (targetW targetH : Nat) : Dims :=
  cropDims (coverLeft d targetW targetH) (coverTop d targetW targetH)
    (coverLeft d targetW targetH + targetW)
    (coverTop d targetW targetH + targetH)

theorem le_coverNW (d : Dims) (targetW targetH : Nat) (hw : 0 < d.w) :
    (targetW : Int) ≤ coverNW d targetW targetH := by
  have hw' : (0 : ℚ) < (d.w : ℚ) := by exact_mod_cast hw
  have hq : (targetW : ℚ) ≤ (d.w : ℚ) * coverScale d targetW targetH := by
    have h1 : (targetW : ℚ) / d.w ≤ coverScale d targetW targetH :=
      le_max_left _ _
    calc (targetW : ℚ) = (d.w : ℚ) * ((targetW : ℚ) / d.w) := by
          field_simp
      _ ≤ (d.w : ℚ) * coverScale d targetW targetH :=
          mul_le_mul_of_nonneg_left h1 (le_of_lt hw')
  have h0 : (0 : ℚ) ≤ (d.w : ℚ) * coverScale d targetW targetH :=
    le_trans (by positivity) hq
  rw [coverNW, pyInt, if_pos h0]
  exact Int.le_floor.mpr (by exact_mod_cast hq)

theorem le_coverNH (d : Dims) (targetW targetH : Nat) (hh : 0 < d.h) :
    (targetH : Int) ≤ coverNH d targetW targetH := by
  have hh' : (0 : ℚ) < (d.h : ℚ) := by exact_mod_cast hh
  have hq : (targetH : ℚ) ≤ (d.h : ℚ) * coverScale d targetW targetH := by
    have h1 : (targetH : ℚ) / d.h ≤ coverScale d targetW targetH :=
      le_max_right _ _
    calc (targetH : ℚ) = (d.h : ℚ) * ((targetH : ℚ) / d.h) := by
          field_simp
      _ ≤ (d.h : ℚ) * coverScale d targetW targetH :=
          mul_le_mul_of_nonneg_left h1 (le_of_lt hh')
  have h0 : (0 : ℚ) ≤ (d.h : ℚ) * coverScale d targetW targetH :=
    le_trans (by positivity) hq
  rw [coverNH, pyInt, if_pos h0]
  exact Int.le_floor.mpr (by exact_mod_cast hq)

/-- C3: for every source image of positive width and height and every positive
target size, `_cover_resize` returns an image of exactly the requested target
width and height; moreover the centered crop box lies inside the resized image
(so the result is a genuine center crop of the scaled source, never padded). -/
theorem cover_resize_exact_dims (d : Dims) (targetW targetH : Nat)
    (hw : 0 < d.w) (hh : 0 < d.h) (htw : 0 < targetW) (hth : 0 < targetH) :
    (coverResize d targetW targetH).w = targetW ∧
    (coverResize d targetW targetH).h = targetH ∧
    0 ≤ coverLeft d targetW targetH ∧
    coverLeft d targetW targetH + targetW ≤ coverNW d targetW targetH ∧
    0 ≤ coverTop d targetW targetH ∧
    coverTop d targetW targetH + targetH ≤ coverNH d targetW targetH := by
  have hnw := le_coverNW d targetW targetH hw
  have hnh := le_coverNH d targetW targetH hh
  have hleft : coverLeft d targetW targetH
      = (coverNW d targetW targetH - targetW) / 2 :=
    Int.fdiv_eq_ediv _ (by norm_num)
  have htop : coverTop d targetW targetH
      = (coverNH d targetW targetH - targetH) / 2 :=
    Int.fdiv_eq_ediv _ (by norm_num)
  refine ⟨?_, ?_, ?_, ?_, ?_, ?_⟩
  · simp only [coverResize, cropDims]
    omega
  · simp only [coverResize, cropDims]
    omega
  · rw [hleft]; omega
  · rw [hleft]; omega
  · rw [htop]; omega
  · rw [htop]; omega

/-- Witness for C3 at a concrete portrait source and the configured post
size. -/
theorem cover_resize_exact_dims_witness :
    (coverResize ⟨500, 400⟩ 1080 1350).w = 1080 ∧
    (coverResize ⟨500, 400⟩ 1080 1350).h = 1350 ∧
    0 ≤ coverLeft ⟨500, 400⟩ 1080 1350 ∧
    coverLeft ⟨500, 400⟩ 1080 1350 + 1080 ≤ coverNW ⟨500, 400⟩ 1080 1350 ∧
    0 ≤ coverTop ⟨500, 400⟩ 1080 1350 ∧
    coverTop ⟨500, 400⟩ 1080 1350 + 1350 ≤ coverNH ⟨500, 400⟩ 1080 1350 :=
  cover_resize_exact_dims ⟨500, 400⟩ 1080 1350 (by norm_num) (by norm_num)
    (by norm_num) (by norm_num)

/-- Denominator of the interpolation parameter in `_gradient_rgba`:
`max(1, h - 1)`. -/
def gradientDen (h : Nat) : Nat := max 1 (h - 1)

/-- Interpolation parameter of row `y` in `_gradient_rgba`:
`t = y / max(1, h - 1)` (float division, modelled exactly on `ℚ`). -/
def gradientT (h y : Nat) : ℚ := (y : ℚ) / (gradientDen h : ℚ)

/-- Exact value interpolated by `_gradient_rgba` for one colour channel
before `int(...)` truncation: `a * (1 - t) + b * t`. -/
def gradientQ (a b h y : Nat) : ℚ :=
  (a : ℚ) * (1 - gradientT h y) + (b : ℚ) * gradientT h y

/-- One colour channel of row `y` of `_gradient_rgba`:
`int(a * (1 - t) + b * t)`. -/
def gradientChannel (a b h y : Nat) : Int := pyInt (gradientQ a b h y)

/-- Mutable 2D pixel buffer with colour and alpha channels, at the level the
gradient claims need: dimensions plus the per-pixel RGBA value. -/
structure PixImage where
  width : Nat
  height : Nat
  pix : Nat → Nat → Int × Int × Int × Int

/-- Model of `ImageEditor._gradient_rgba(w, h, hex_a, hex_b, alpha)`, with the two hex
strings already converted by `_hex_to_rgb` to the RGB triples `a` and `b`: the
loop assigns every pixel of row `y` the three channel values interpolated at
`t = y / max(1, h-1)` and the single requested alpha. -/
def gradientRGBA (w h : Nat) (a b : Nat × Nat × Nat) (alpha : Nat) :
    PixImage :=
  ⟨w, h, fun _ y =>
    (gradientChannel a.1 b.1 h y, gradientChannel a.2.1 b.2.1 h y,
     gradientChannel a.2.2 b.2.2 h y, (alpha : Int))⟩

theorem gradientDen_pos (h : Nat) : (0 : ℚ) < (gradientDen h : ℚ) := by
  have : 1 ≤ gradientDen h := le_max_left _ _
  exact_mod_cast Nat.lt_of_lt_of_le Nat.zero_lt_one this

theorem gradientT_nonneg (h y : Nat) : 0 ≤ gradientT h y :=
  div_nonneg (by positivity) (le_of_lt (gradientDen_pos h))

theorem gradientT_le_one (h y : Nat) (hy : y ≤ gradientDen h) :
    gradientT h y ≤ 1 := by
  rw [gradientT, div_le_one (gradientDen_pos h)]
  exact_mod_cast hy

theorem gradientQ_nonneg (a b h y : Nat) (hy : y ≤ gradientDen h) :
    0 ≤ gradientQ a b h y := by
  have h1 := gradientT_nonneg h y
  have h2 := gradientT_le_one h y hy
  have ha : (0 : ℚ) ≤ (a : ℚ) := by positivity
  have hb : (0 : ℚ) ≤ (b : ℚ) := by positivity
  rw [gradientQ]
  have : (0 : ℚ) ≤ 1 - gradientT h y := by linarith
  positivity

theorem gradientChannel_eq_floor (a b h y : Nat) (hy : y ≤ gradientDen h) :
    gradientChannel a b h y = ⌊gradientQ a b h y⌋ := by
  rw [gradientChannel, pyInt, if_pos (gradientQ_nonneg a b h y hy)]

theorem gradientT_mono (h : Nat) {y1 y2 : Nat} (h12 : y1 ≤ y2) :
    gradientT h y1 ≤ gradientT h y2 := by
  rw [gradientT, gradientT]
  exact (div_le_div_iff_of_pos_right (gradientDen_pos h)).mpr
    (by exact_mod_cast h12)

theorem gradientChannel_mono_of_le (a b h : Nat) (hab : a ≤ b)
    {y1 y2 : Nat} (h12 : y1 ≤ y2) (h2 : y2 ≤ gradientDen h) :
    gradientChannel a b h y1 ≤ gradientChannel a b h y2 := by
  rw [gradientChannel_eq_floor a b h y1 (le_trans h12 h2),
    gradientChannel_eq_floor a b h y2 h2]
  apply Int.floor_le_floor
  have ht := gradientT_mono h h12
  have hd : gradientQ a b h y2 - gradientQ a b h y1
      = ((b : ℚ) - a) * (gradientT h y2 - gradientT h y1) := by
    rw [gradientQ, gradientQ]; ring
  have hba : (0 : ℚ) ≤ (b : ℚ) - a := by
    have : (a : ℚ) ≤ b := by exact_mod_cast hab
    linarith
  nlinarith [mul_nonneg hba (sub_nonneg.mpr ht)]

theorem gradientChannel_anti_of_ge (a b h : Nat) (hab : b ≤ a)
    {y1 y2 : Nat} (h12 : y1 ≤ y2) (h2 : y2 ≤ gradientDen h) :
    gradientChannel a b h y2 ≤ gradientChannel a b h y1 := by
  rw [gradientChannel_eq_floor a b h y1 (le_trans h12 h2),
    gradientChannel_eq_floor a b h y2 h2]
  apply Int.floor_le_floor
  have ht := gradientT_mono h h12
  have hd : gradientQ a b h y1 - gradientQ a b h y2
      = ((a : ℚ) - b) * (gradientT h y2 - gradientT h y1) := by
    rw [gradientQ, gradientQ]; ring
  have hba : (0 : ℚ) ≤ (a : ℚ) - b := by
    have : (b : ℚ) ≤ a := by exact_mod_cast hab
    linarith
  nlinarith [mul_nonneg hba (sub_nonneg.mpr ht)]

theorem gradientChannel_row_zero (a b h : Nat) :
    gradientChannel a b h 0 = a := by
  have ht : gradientT h 0 = 0 := by
    rw [gradientT]; simp
  rw [gradientChannel, gradientQ, ht, pyInt]
  norm_num

theorem gradientChannel_last_row (a b h : Nat) (hh : 2 ≤ h) :
    gradientChannel a b h (h - 1) = b := by
  have hden : gradientDen h = h - 1 :=
    max_eq_right (by omega)
  have ht : gradientT h (h - 1) = 1 := by
    rw [gradientT, hden, div_self]
    have : 0 < h - 1 := by omega
    exact_mod_cast Nat.pos_iff_ne_zero.mp this
  rw [gradientChannel, gradientQ, ht, pyInt]
  norm_num

/-- C9 (counterexample): at height `h = 1` (allowed by the claim, which
quantifies over every `h ≥ 1`), the last pixel row of the gradient from
A = (0,0,0) to B = (255,255,255) equals A, not B: the red channel is 0,
which differs from B's 255 by far more than any rounding tolerance. -/
theorem gradient_last_row_cex :
    ((gradientRGBA 4 1 (0, 0, 0) (255, 255, 255) 255).pix 0 (1 - 1)).1 = 0 ∧
      1 < (255 : Int) -
        ((gradientRGBA 4 1 (0, 0, 0) (255, 255, 255) 255).pix 0 (1 - 1)).1 := by
  have h : ((gradientRGBA 4 1 (0, 0, 0) (255, 255, 255) 255).pix
      0 (1 - 1)).1 = 0 := by
    show gradientChannel 0 255 1 (1 - 1) = 0
    rw [show (1 : Nat) - 1 = 0 from rfl, gradientChannel_row_zero]
    rfl
  exact ⟨h, by rw [h]; norm_num⟩

/-- C9 (amended): for every width `w ≥ 1`, height `h ≥ 2`, colours A and B
and alpha, the gradient built by `_gradient_rgba` has: pixel row 0 exactly
equal to colour A, the last row exactly equal to colour B, every colour
channel monotonically interpolated down the rows (non-decreasing when that
channel of A is at most that of B, non-increasing when it is at least), and
every pixel carrying the single requested alpha value. -/
theorem gradient_rows_interpolate (w h : Nat) (a b : Nat × Nat × Nat)
    (alpha : Nat) (hw : 1 ≤ w) (hh : 2 ≤ h) :
    (∀ x, x < w →
      (gradientRGBA w h a b alpha).pix x 0
        = ((a.1 : Int), (a.2.1 : Int), (a.2.2 : Int), (alpha : Int))) ∧
    (∀ x, x < w →
      (gradientRGBA w h a b alpha).pix x (h - 1)
        = ((b.1 : Int), (b.2.1 : Int), (b.2.2 : Int), (alpha : Int))) ∧
    (∀ x y1 y2, x < w → y1 ≤ y2 → y2 < h →
      (a.1 ≤ b.1 →
        ((gradientRGBA w h a b alpha).pix x y1).1
          ≤ ((gradientRGBA w h a b alpha).pix x y2).1) ∧
      (b.1 ≤ a.1 →
        ((gradientRGBA w h a b alpha).pix x y2).1
          ≤ ((gradientRGBA w h a b alpha).pix x y1).1) ∧
      (a.2.1 ≤ b.2.1 →
        ((gradientRGBA w h a b alpha).pix x y1).2.1
          ≤ ((gradientRGBA w h a b alpha).pix x y2).2.1) ∧
      (b.2.1 ≤ a.2.1 →
        ((gradientRGBA w h a b alpha).pix x y2).2.1
          ≤ ((gradientRGBA w h a b alpha).pix x y1).2.1) ∧
      (a.2.2 ≤ b.2.2 →
        ((gradientRGBA w h a b alpha).pix x y1).2.2.1
          ≤ ((gradientRGBA w h a b alpha).pix x y2).2.2.1) ∧
      (b.2.2 ≤ a.2.2 →
        ((gradientRGBA w h a b alpha).pix x y2).2.2.1
          ≤ ((gradientRGBA w h a b alpha).pix x y1).2.2.1)) ∧
    (∀ x y, x < w → y < h →
      ((gradientRGBA w h a b alpha).pix x y).2.2.2 = (alpha : Int)) := by
  have hden : gradientDen h = h - 1 := max_eq_right (by omega)
  refine ⟨?_, ?_, ?_, ?_⟩
  · intro x _
    show (gradientChannel a.1 b.1 h 0, gradientChannel a.2.1 b.2.1 h 0,
        gradientChannel a.2.2 b.2.2 h 0, (alpha : Int)) = _
    rw [gradientChannel_row_zero, gradientChannel_row_zero,
      gradientChannel_row_zero]
  · intro x _
    show (gradientChannel a.1 b.1 h (h - 1),
        gradientChannel a.2.1 b.2.1 h (h - 1),
        gradientChannel a.2.2 b.2.2 h (h - 1), (alpha : Int)) = _
    rw [gradientChannel_last_row _ _ _ hh, gradientChannel_last_row _ _ _ hh,
      gradientChannel_last_row _ _ _ hh]
  · intro x y1 y2 _ h12 h2
    have h2' : y2 ≤ gradientDen h := by rw [hden]; omega
    exact ⟨fun hab => gradientChannel_mono_of_le _ _ _ hab h12 h2',
      fun hab => gradientChannel_anti_of_ge _ _ _ hab h12 h2',
      fun hab => gradientChannel_mono_of_le _ _ _ hab h12 h2',
      fun hab => gradientChannel_anti_of_ge _ _ _ hab h12 h2',
      fun hab => gradientChannel_mono_of_le _ _ _ hab h12 h2',
      fun hab => gradientChannel_anti_of_ge _ _ _ hab h12 h2'⟩
  · intro x y _ _
    rfl

/-- Witness for the amended C9 at the configured brand gradient colours
`#1e1b4b` to `#4338ca` and the post size 1080 by 1350. -/
theorem gradient_rows_interpolate_witness :
    (∀ x, x < 1080 →
      (gradientRGBA 1080 1350 (30, 27, 75) (67, 56, 202) 255).pix x 0
        = ((30 : Int), (27 : Int), (75 : Int), (255 : Int))) ∧
    (∀ x, x < 1080 →
      (gradientRGBA 1080 1350 (30, 27, 75) (67, 56, 202) 255).pix x (1350 - 1)
        = ((67 : Int), (56 : Int), (202 : Int), (255 : Int))) ∧
    (∀ x y1 y2, x < 1080 → y1 ≤ y2 → y2 < 1350 →
      ((30 : Nat) ≤ 67 →
        ((gradientRGBA 1080 1350 (30, 27, 75) (67, 56, 202) 255).pix x y1).1
          ≤ ((gradientRGBA 1080 1350 (30, 27, 75) (67, 56, 202) 255).pix
              x y2).1) ∧
      ((67 : Nat) ≤ 30 →
        ((gradientRGBA 1080 1350 (30, 27, 75) (67, 56, 202) 255).pix x y2).1
          ≤ ((gradientRGBA 1080 1350 (30, 27, 75) (67, 56, 202) 255).pix
              x y1).1) ∧
      ((27 : Nat) ≤ 56 →
        ((gradientRGBA 1080 1350 (30, 27, 75) (67, 56, 202) 255).pix
            x y1).2.1
          ≤ ((gradientRGBA 1080 1350 (30, 27, 75) (67, 56, 202) 255).pix
              x y2).2.1) ∧
      ((56 : Nat) ≤ 27 →
        ((gradientRGBA 1080 1350 (30, 27, 75) (67, 56, 202) 255).pix
            x y2).2.1
          ≤ ((gradientRGBA 1080 1350 (30, 27, 75) (67, 56, 202) 255).pix
              x y1).2.1) ∧
      ((75 : Nat) ≤ 202 →
        ((gradientRGBA 1080 1350 (30, 27, 75) (67, 56, 202) 255).pix
            x y1).2.2.1
          ≤ ((gradientRGBA 1080 1350 (30, 27, 75) (67, 56, 202) 255).pix
              x y2).2.2.1) ∧
      ((202 : Nat) ≤ 75 →
        ((gradientRGBA 1080 1350 (30, 27, 75) (67, 56, 202) 255).pix
            x y2).2.2.1
          ≤ ((gradientRGBA 1080 1350 (30, 27, 75) (67, 56, 202) 255).pix
              x y1).2.2.1)) ∧
    (∀ x y, x < 1080 → y < 1350 →
      ((gradientRGBA 1080 1350 (30, 27, 75) (67, 56, 202) 255).pix
          x y).2.2.2 = (255 : Int)) :=
  gradient_rows_interpolate 1080 1350 (30, 27, 75) (67, 56, 202) 255
    (by norm_num) (by norm_num)

/-- Constant `settings.POST_WIDTH`. -/
def POST_WIDTH : Nat := 1080

/-- Constant `settings.POST_HEIGHT`. -/
def POST_HEIGHT : Nat := 1350

/-- Constant `settings.SAFE_MARGIN`. -/
def SAFE_MARGIN : Int := 72

/-- Environment abstracting the filesystem and the external collaborators of
one `ImageEditor` render call: `pathExists p` models `Path(p).exists()`,
`imgDims p` the size of the raster image opened at `p`, `cachePick` the
outcome of `pick_random_background()` (a uniformly-random choice from the
local cache pool, or `none` when the pool is empty), `pexelsFetch q` the
outcome of `PexelsClient.get_background_for_query(q)`, `logoExists` whether
`settings.LOGO_PATH` exists, and `logoDims` the size of the logo image. -/
structure RenderEnv where
  pathExists : String → Bool
  imgDims : String → Dims
  cachePick : Option String
  pexelsFetch : String → Option String
  logoExists : Bool
  logoDims : Dims

/-- Observable outcome of `ImageEditor._build_background`: the dimensions of
the produced background canvas, which source image was used (`none` for the
synthetic-gradient fallback), whether the gradient fallback was taken, how
many calls reached `PexelsClient.get_background_for_query`, and whether
`pick_random_background` (the local cache pool) was consulted. -/
structure BgResult where
  dims : Dims
  chosen : Option String
  usedGradient : Bool
  pexelsCalls : Nat
  cacheConsulted : Bool

/-- Model of `ImageEditor._build_background`: resolve a source in the order explicit
path (if truthy and existing) → local cache pool → remote fetch (only when
`auto_fetch` and nothing was found); an obtained image is cover-resized to
the post size and then Gaussian-blurred and overlaid with the dark wash, the
gradient wash and the highlight blob, all of which act pixel-wise and keep
the dimensions of their input; with no image the gradient base of the full
post size receives the blob and dark-wash treatment. -/
def buildBackground (env : RenderEnv) (backgroundPath : Option String)
    (backgroundQuery : String) (autoFetch : Bool) : BgResult :=
  let chosen0 : Option String :=
    match backgroundPath with
    | some s => if !s.isEmpty && env.pathExists s then some s else none
    | none => none
  let cacheConsulted := chosen0.isNone
  let chosen1 := if chosen0.isNone then env.cachePick else chosen0
  let doFetch := chosen1.isNone && autoFetch
  let chosen2 := if doFetch then env.pexelsFetch backgroundQuery else chosen1
  let pexelsCalls := if doFetch then 1 else 0
  match chosen2 with
  | some p =>
      if env.pathExists p then
        ⟨coverResize (env.imgDims p) POST_WIDTH POST_HEIGHT, some p, false,
          pexelsCalls, cacheConsulted⟩
      else
        ⟨⟨POST_WIDTH, POST_HEIGHT⟩, none, true, pexelsCalls, cacheConsulted⟩
  | none =>
      ⟨⟨POST_WIDTH, POST_HEIGHT⟩, none, true, pexelsCalls, cacheConsulted⟩

/-- Dimensions of the Canvas assembled by `create_post`: the background is
converted to RGBA (size-preserving) and both render variants draw onto it in
place without resizing it. -/
def createPostCanvasDims (env : RenderEnv) (backgroundPath : Option String)
    (backgroundQuery : String) (autoFetch : Bool) : Dims :=
  (buildBackground env backgroundPath backgroundQuery autoFetch).dims

theorem dims_eq {d : Dims} {a b : Nat} (hw : d.w = a) (hh : d.h = b) :
    d = ⟨a, b⟩ := by
  obtain ⟨x, y⟩ := d
  simp only [Dims.mk.injEq]
  exact ⟨hw, hh⟩

theorem bgResult_dims (env : RenderEnv) (c2 : Option String) (pc : Nat)
    (cc : Bool)
    (himg : ∀ p, 0 < (env.imgDims p).w ∧ 0 < (env.imgDims p).h) :
    (match c2 with
      | some p =>
          if env.pathExists p then
            (⟨coverResize (env.imgDims p) POST_WIDTH POST_HEIGHT, some p,
              false, pc, cc⟩ : BgResult)
          else ⟨⟨POST_WIDTH, POST_HEIGHT⟩, none, true, pc, cc⟩
      | none => ⟨⟨POST_WIDTH, POST_HEIGHT⟩, none, true, pc, cc⟩).dims
      = ⟨1080, 1350⟩ := by
  cases c2 with
  | none => rfl
  | some p =>
      by_cases hp : env.pathExists p = true
      · simp only [hp, if_true]
        exact dims_eq
          (cover_resize_exact_dims _ _ _ (himg p).1 (himg p).2
            (by norm_num [POST_WIDTH]) (by norm_num [POST_HEIGHT])).1
          (cover_resize_exact_dims _ _ _ (himg p).1 (himg p).2
            (by norm_num [POST_WIDTH]) (by norm_num [POST_HEIGHT])).2.1
      · simp only [hp, if_false]
        rfl

/-- C4: whenever an explicit background path is supplied (non-empty) and that
path exists on disk, `_build_background` makes zero calls to
`PexelsClient.get_background_for_query`, never consults the local cache pool,
and builds the background from the explicit image, regardless of the
`auto_fetch` flag and of the collaborator's behaviour. -/
theorem explicit_background_no_remote_call (env : RenderEnv) (s : String)
    (backgroundQuery : String) (autoFetch : Bool)
    (hne : s.isEmpty = false) (hex : env.pathExists s = true) :
    (buildBackground env (some s) backgroundQuery autoFetch).pexelsCalls = 0 ∧
    (buildBackground env (some s) backgroundQuery autoFetch).cacheConsulted
      = false ∧
    (buildBackground env (some s) backgroundQuery autoFetch).chosen
      = some s := by
  simp [buildBackground, hne, hex]

/-- Witness for C4 at a concrete environment whose collaborator would return
a photo if it were ever called. -/
theorem explicit_background_no_remote_call_witness :
    ("bg.jpg".isEmpty = false) ∧
    ((⟨fun _ => true, fun _ => ⟨800, 600⟩, some "cache.jpg",
        fun _ => some "pexels.jpg", true, ⟨70, 70⟩⟩ : RenderEnv).pathExists
        "bg.jpg" = true) ∧
    ((buildBackground
        ⟨fun _ => true, fun _ => ⟨800, 600⟩, some "cache.jpg",
          fun _ => some "pexels.jpg", true, ⟨70, 70⟩⟩
        (some "bg.jpg") "education" true).pexelsCalls = 0 ∧
      (buildBackground
        ⟨fun _ => true, fun _ => ⟨800, 600⟩, some "cache.jpg",
          fun _ => some "pexels.jpg", true, ⟨70, 70⟩⟩
        (some "bg.jpg") "education" true).cacheConsulted = false ∧
      (buildBackground
        ⟨fun _ => true, fun _ => ⟨800, 600⟩, some "cache.jpg",
          fun _ => some "pexels.jpg", true, ⟨70, 70⟩⟩
        (some "bg.jpg") "education" true).chosen = some "bg.jpg") :=
  ⟨rfl, rfl,
    explicit_background_no_remote_call
      ⟨fun _ => true, fun _ => ⟨800, 600⟩, some "cache.jpg",
        fun _ => some "pexels.jpg", true, ⟨70, 70⟩⟩
      "bg.jpg" "education" true rfl rfl⟩

/-- C6: whichever of the four background-resolution paths is taken (explicit
path, cached pool, remote fetch, or synthetic gradient), the canvas produced
by the pipeline has width and height exactly the configured post size
1080 x 1350 (assuming every image the environment can open has positive
dimensions, as PIL guarantees for real raster files). -/
theorem canvas_always_post_size (env : RenderEnv)
    (backgroundPath : Option String) (backgroundQuery : String)
    (autoFetch : Bool)
    (himg : ∀ p, 0 < (env.imgDims p).w ∧ 0 < (env.imgDims p).h) :
    createPostCanvasDims env backgroundPath backgroundQuery autoFetch
      = ⟨1080, 1350⟩ := by
  unfold createPostCanvasDims buildBackground
  exact bgResult_dims env _ _ _ himg

/-- Witness for C6 at a concrete environment taking the remote-fetch path. -/
theorem canvas_always_post_size_witness :
    (∀ p, 0 < ((⟨fun _ => true, fun _ => ⟨800, 600⟩, none,
        fun _ => some "pexels.jpg", false, ⟨70, 70⟩⟩ : RenderEnv).imgDims
          p).w ∧
      0 < ((⟨fun _ => true, fun _ => ⟨800, 600⟩, none,
        fun _ => some "pexels.jpg", false, ⟨70, 70⟩⟩ : RenderEnv).imgDims
          p).h) ∧
    createPostCanvasDims
      ⟨fun _ => true, fun _ => ⟨800, 600⟩, none, fun _ => some "pexels.jpg",
        false, ⟨70, 70⟩⟩ none "education" true = ⟨1080, 1350⟩ :=
  ⟨fun _ => ⟨by norm_num, by norm_num⟩,
    canvas_always_post_size _ none "education" true
      (fun _ => ⟨by norm_num, by norm_num⟩)⟩

/-- A photo returned by the Pexels search (`PexelsPhoto`); `src` is the
ordered key/value mapping of download variants. -/
structure Photo where
  id : Nat
  width : Nat
  height : Nat
  photographer : String
  url : String
  src : List (String × String)

/-- Model of `PexelsClient._pick_best_src`: walk the quality-priority keys
`original, large2x, large, portrait` and return the first non-empty value;
failing that, the first non-empty value of any entry; else `None`. -/
def pickBestSrc (src : List (String × String)) : Option String :=
  match ["original", "large2x", "large", "portrait"].findSome? (fun key =>
      match src.find? (fun kv => kv.1 == key) with
      | some kv => if kv.2.isEmpty then none else some kv.2
      | none => none) with
  | some v => some v
  | none => src.findSome? fun kv => if kv.2.isEmpty then none else some kv.2

/-- Model of `PexelsClient._choose_best`: the first photo of size at least 1200 x 1600
if one exists, else the first photo; `None` only for an empty list. -/
def chooseBest (photos : List Photo) : Option Photo :=
  match photos with
  | [] => none
  | p0 :: _ =>
      match photos.filter (fun p => decide (1200 ≤ p.width) &&
          decide (1600 ≤ p.height)) with
      | g :: _ => some g
      | [] => some p0

/-- Model of `PexelsClient._cache_path(photo_id)`: the string `download_dir / f"pexels_{id}.jpg"`. -/
def cachePath (downloadDir : String) (photoId : Nat) : String :=
  downloadDir ++ "/pexels_" ++ toString photoId ++ ".jpg"

/-- Query normalisation at the top of `get_background_for_query`:
`query = (query or "").strip()`, defaulting to `"education students laptop"`
when blank. -/
def normalizeQuery (query : String) : String :=
  if query.trim.isEmpty then "education students laptop" else query.trim

/-- Outcome environment for the Pexels collaborator: `searchOutcome q` is the
result of `search_photos(q, per_page=20, orientation="portrait")` after the
bounded exponential-backoff retries inside `_get` (`.error` models an
exception escaping them — network failure, rate limit 429, or any HTTP
error after retry exhaustion); `cacheExists` models `cached.exists()`;
`downloadOutcome url dest` the result of `_download_file` after its own
retries. -/
structure PexelsEnv where
  apiKey : String
  searchOutcome : String → Except String (List Photo)
  cacheExists : String → Bool
  downloadOutcome : String → String → Except String Unit

/-- Model of `PexelsClient.get_background_for_query`: returns `None` without raising
when the API key is blank, when the search raises (the `try/except` catches
everything), when no photos come back, when no usable source URL exists, or
when the download raises; otherwise it returns the cache path. -/
def getBackgroundForQuery (env : PexelsEnv) (downloadDir : String)
    (query : String) : Option String :=
  if env.apiKey.isEmpty then none
  else
    match env.searchOutcome (normalizeQuery query) with
    | .error _ => none
    | .ok photos =>
        if photos.isEmpty then none
        else
          match chooseBest photos with
          | none => none
          | some chosen =>
              let cached := cachePath downloadDir chosen.id
              if env.cacheExists cached then some cached
              else
                match pickBestSrc chosen.src with
                | none => none
                | some url =>
                    match env.downloadOutcome url cached with
                    | .error _ => none
                    | .ok _ => some cached

/-- C8: when the remote background search fails (network error, rate limit,
or exhausted retries) or returns no photos, and neither an explicit nor a
cached background exists, the render does not fail: the failure is absorbed
inside `get_background_for_query` (which returns `None` rather than raising)
and `_build_background` falls through to the synthetic gradient base of the
full post size. -/
theorem fetch_failure_falls_to_gradient (penv : PexelsEnv)
    (downloadDir : String) (env : RenderEnv)
    (backgroundPath : Option String) (query : String) (autoFetch : Bool)
    (hfetch : env.pexelsFetch
      = fun q => getBackgroundForQuery penv downloadDir q)
    (hfail : (∃ e, penv.searchOutcome (normalizeQuery query) = .error e) ∨
      penv.searchOutcome (normalizeQuery query) = .ok [])
    (hbp : ∀ s, backgroundPath = some s →
      s.isEmpty = true ∨ env.pathExists s = false)
    (hcache : env.cachePick = none) :
    getBackgroundForQuery penv downloadDir query = none ∧
    (buildBackground env backgroundPath query autoFetch).usedGradient
      = true ∧
    (buildBackground env backgroundPath query autoFetch).dims
      = ⟨1080, 1350⟩ := by
  have hget : getBackgroundForQuery penv downloadDir query = none := by
    unfold getBackgroundForQuery
    by_cases hk : penv.apiKey.isEmpty
    · simp [hk]
    · rcases hfail with ⟨e, he⟩ | he <;> simp [hk, he]
  have hchosen0 :
      (match backgroundPath with
        | some s => if !s.isEmpty && env.pathExists s then some s else none
        | none => (none : Option String)) = none := by
    cases hb : backgroundPath with
    | none => rfl
    | some s =>
        rcases hbp s hb with h | h <;> simp [h]
  refine ⟨hget, ?_⟩
  unfold buildBackground
  rw [hchosen0]
  simp only [Option.isNone_none, if_true, hcache, Option.isNone_none,
    Bool.true_and, hfetch]
  cases autoFetch <;> simp [hget, POST_WIDTH, POST_HEIGHT]

/-- Witness for C8: a rate-limited search, no explicit path, an empty cache
pool. -/
theorem fetch_failure_falls_to_gradient_witness :
    getBackgroundForQuery
      ⟨"key", fun _ => .error "Pexels HTTP 429", fun _ => false,
        fun _ _ => .ok ()⟩ "backgrounds" "education" = none ∧
    (buildBackground
      ⟨fun _ => false, fun _ => ⟨800, 600⟩, none,
        fun q => getBackgroundForQuery
          ⟨"key", fun _ => .error "Pexels HTTP 429", fun _ => false,
            fun _ _ => .ok ()⟩ "backgrounds" q,
        false, ⟨70, 70⟩⟩ none "education" true).usedGradient = true ∧
    (buildBackground
      ⟨fun _ => false, fun _ => ⟨800, 600⟩, none,
        fun q => getBackgroundForQuery
          ⟨"key", fun _ => .error "Pexels HTTP 429", fun _ => false,
            fun _ _ => .ok ()⟩ "backgrounds" q,
        false, ⟨70, 70⟩⟩ none "education" true).dims = ⟨1080, 1350⟩ :=
  fetch_failure_falls_to_gradient
    ⟨"key", fun _ => .error "Pexels HTTP 429", fun _ => false,
      fun _ _ => .ok ()⟩ "backgrounds"
    ⟨fun _ => false, fun _ => ⟨800, 600⟩, none,
      fun q => getBackgroundForQuery
        ⟨"key", fun _ => .error "Pexels HTTP 429", fun _ => false,
          fun _ _ => .ok ()⟩ "backgrounds" q,
      false, ⟨70, 70⟩⟩
    none "education" true rfl (Or.inl ⟨"Pexels HTTP 429", rfl⟩)
    (fun s h => by cases h) rfl

/-- Model of `ImageEditor._contain_resize` at the level of dimensions:
`scale = min(max_w / w, max_h / h)`; each side becomes
`max(1, int(side * scale))`. -/
def containResize (d : Dims) (maxW maxH : Nat) : Dims :=
  ⟨(max 1 (pyInt ((d.w : ℚ)
      * min ((maxW : ℚ) / d.w) ((maxH : ℚ) / d.h)))).toNat,
   (max 1 (pyInt ((d.h : ℚ)
      * min ((maxW : ℚ) / d.w) ((maxH : ℚ) / d.h)))).toNat⟩

/-- Model of `ImageEditor._paste_logo_plain(canvas, x, y, max_size)`: when the
configured logo file is missing it logs a warning and returns `x` unchanged,
skipping the glow, shadow and logo composites; otherwise the logo is
contain-resized to `max_size` and pasted with its glow and shadow, and
`x + logo.width` is returned.  The Boolean records whether the logo layer was
drawn. -/
def pasteLogoPlain (env : RenderEnv) (x : Int) (maxSize : Nat) : Int × Bool :=
  if env.logoExists then
    (x + (containResize env.logoDims maxSize maxSize).w, true)
  else
    (x, false)

/-- The element positions computed by `_render_estacio_like`, plus whether
the logo layer was drawn. -/
structure HeaderLayout where
  wordmarkX : Int
  wordmarkY : Int
  accentX : Int
  handleX : Int
  handleY : Int
  cardY : Int
  kickerY : Int
  titleY : Int
  ctaY : Int
  logoDrawn : Bool

/-- Geometry of `_render_estacio_like`: `x` starts at `m - 10`; with
`add_logo` it becomes the value returned by
`_paste_logo_plain(.., max_size=70)` plus 16; the wordmark "EduFlow" is drawn
at `(x, 32)`, the accent suffix "IA" at `(x + brand_w + 5, 32)` where
`brand_w` abstracts the measured bounding-box width of the wordmark, the
handle at `(w - m - 200, 44)`; the glass card starts at
`card_y = int(h * 0.45)` with the kicker at `card_y + 32`, the title block at
`card_y + 68` and the CTA at `card_y + card_h - 54` for
`card_h = h - card_y - m - 20`. -/
def renderEstacioLike (env : RenderEnv) (addLogo : Bool) (brandW : Int) :
    HeaderLayout :=
  let w : Int := POST_WIDTH
  let h : Int := POST_HEIGHT
  let m : Int := SAFE_MARGIN
  let x0 : Int := m - 10
  let logoStep := if addLogo then pasteLogoPlain env x0 70 else (x0, false)
  let x : Int := if addLogo then logoStep.1 + 16 else x0
  let cardY : Int := pyInt ((POST_HEIGHT : ℚ) * (45 / 100))
  let cardH : Int := h - cardY - m - 20
  ⟨x, 32, x + brandW + 5, w - m - 200, 44, cardY, cardY + 32, cardY + 68,
   cardY + cardH - 54, logoStep.2⟩

/-- Model of `ImageEditor._resolve_output_path`: an explicitly supplied path is
returned as-is; otherwise the timestamp-derived default under
`PROCESSED_DIR` (abstracted as `defaultPath`, since it depends on the
clock). -/
def resolveOutputPath (outputPath : Option String) (defaultPath : String) :
    String :=
  match outputPath with
  | some p => p
  | none => defaultPath

/-- Observable outcome of `ImageEditor.create_post` with the default
`estacio_like` template: canvas dimensions after rendering, the header/text
layout drawn, and the saved output path. -/
structure PostResult where
  canvas : Dims
  layout : HeaderLayout
  outPath : String

/-- Model of `ImageEditor.create_post`: build the background, convert it to RGBA
(size-preserving), draw the `estacio_like` layout in place, and save a JPEG
at the resolved output path, which is returned. -/
def createPost (env : RenderEnv) (backgroundPath : Option String)
    (backgroundQuery : String) (autoFetch : Bool) (addLogo : Bool)
    (brandW : Int) (outputPath : Option String) (defaultPath : String) :
    PostResult :=
  ⟨(buildBackground env backgroundPath backgroundQuery autoFetch).dims,
   renderEstacioLike env addLogo brandW,
   resolveOutputPath outputPath defaultPath⟩

/-- C5 (counterexample): with `add_logo` enabled, a 70 x 70 logo present puts
the wordmark at x = 148, while a missing logo file puts it at x = 78: the
wordmark is NOT drawn at the same position as with the logo present (the
freed space is reclaimed, contradicting the claim's "freed space unused"). -/
theorem missing_logo_same_position_cex :
    (renderEstacioLike
        ⟨fun _ => true, fun _ => ⟨800, 600⟩, none, fun _ => none, false,
          ⟨70, 70⟩⟩ true 180).wordmarkX = 78 ∧
    (renderEstacioLike
        ⟨fun _ => true, fun _ => ⟨800, 600⟩, none, fun _ => none, true,
          ⟨70, 70⟩⟩ true 180).wordmarkX = 148 ∧
    (78 : Int) ≠ 148 := by
  refine ⟨by decide, ?_, by decide⟩
  show (pasteLogoPlain
      ⟨fun _ => true, fun _ => ⟨800, 600⟩, none, fun _ => none, true,
        ⟨70, 70⟩⟩ (SAFE_MARGIN - 10) 70).1 + 16 = 148
  have hcontain : containResize ⟨70, 70⟩ 70 70 = ⟨70, 70⟩ := by
    have h1 : ((70 : Nat) : ℚ) * min (((70 : Nat) : ℚ) / (70 : Nat))
        (((70 : Nat) : ℚ) / (70 : Nat)) = 70 := by
      norm_num
    rw [containResize]
    simp only [h1]
    norm_num [pyInt]
    decide
  rw [pasteLogoPlain]
  simp only [if_true]
  rw [hcontain]
  decide

/-- C5 (amended): with `add_logo` enabled and the configured logo file
missing, `create_post` completes and produces an output file at the resolved
path, the canvas dimensions are unchanged (the full post size), logo drawing
is skipped, and the handle, card, kicker, title and CTA positions equal those
of any logo-present environment; the header wordmark, however, shifts left to
the logo origin plus the fixed 16px gap (the freed space is reclaimed, not
left unused). -/
theorem missing_logo_skipped (env envP : RenderEnv)
    (backgroundPath : Option String) (backgroundQuery : String)
    (autoFetch : Bool) (brandW : Int) (outputPath : Option String)
    (defaultPath : String)
    (hmiss : env.logoExists = false)
    (himg : ∀ p, 0 < (env.imgDims p).w ∧ 0 < (env.imgDims p).h) :
    (createPost env backgroundPath backgroundQuery autoFetch true brandW
      outputPath defaultPath).outPath
        = resolveOutputPath outputPath defaultPath ∧
    (createPost env backgroundPath backgroundQuery autoFetch true brandW
      outputPath defaultPath).canvas = ⟨1080, 1350⟩ ∧
    (renderEstacioLike env true brandW).logoDrawn = false ∧
    (renderEstacioLike env true brandW).handleX
      = (renderEstacioLike envP true brandW).handleX ∧
    (renderEstacioLike env true brandW).handleY
      = (renderEstacioLike envP true brandW).handleY ∧
    (renderEstacioLike env true brandW).cardY
      = (renderEstacioLike envP true brandW).cardY ∧
    (renderEstacioLike env true brandW).kickerY
      = (renderEstacioLike envP true brandW).kickerY ∧
    (renderEstacioLike env true brandW).titleY
      = (renderEstacioLike envP true brandW).titleY ∧
    (renderEstacioLike env true brandW).ctaY
      = (renderEstacioLike envP true brandW).ctaY ∧
    (renderEstacioLike env true brandW).wordmarkX
      = SAFE_MARGIN - 10 + 16 := by
  refine ⟨rfl, ?_, ?_, rfl, rfl, rfl, rfl, rfl, rfl, ?_⟩
  · show (buildBackground env backgroundPath backgroundQuery autoFetch).dims
      = ⟨1080, 1350⟩
    unfold buildBackground
    exact bgResult_dims env _ _ _ himg
  · show (pasteLogoPlain env (SAFE_MARGIN - 10) 70).2 = false
    rw [pasteLogoPlain]
    simp [hmiss]
  · show (pasteLogoPlain env (SAFE_MARGIN - 10) 70).1 + 16
      = SAFE_MARGIN - 10 + 16
    rw [pasteLogoPlain]
    simp [hmiss]

/-- Witness for the amended C5 at concrete environments (logo file missing
versus a 70 x 70 logo present). -/
theorem missing_logo_skipped_witness :
    ((⟨fun _ => true, fun _ => ⟨800, 600⟩, none, fun _ => none, false,
        ⟨70, 70⟩⟩ : RenderEnv).logoExists = false) ∧
    ((createPost
        ⟨fun _ => true, fun _ => ⟨800, 600⟩, none, fun _ => none, false,
          ⟨70, 70⟩⟩ none "education" true true 180 (some "out/post.jpg")
        "default.jpg").outPath
          = resolveOutputPath (some "out/post.jpg") "default.jpg" ∧
      (createPost
        ⟨fun _ => true, fun _ => ⟨800, 600⟩, none, fun _ => none, false,
          ⟨70, 70⟩⟩ none "education" true true 180 (some "out/post.jpg")
        "default.jpg").canvas = ⟨1080, 1350⟩ ∧
      (renderEstacioLike
        ⟨fun _ => true, fun _ => ⟨800, 600⟩, none, fun _ => none, false,
          ⟨70, 70⟩⟩ true 180).logoDrawn = false ∧
      (renderEstacioLike
        ⟨fun _ => true, fun _ => ⟨800, 600⟩, none, fun _ => none, false,
          ⟨70, 70⟩⟩ true 180).handleX
        = (renderEstacioLike
            ⟨fun _ => true, fun _ => ⟨800, 600⟩, none, fun _ => none, true,
              ⟨70, 70⟩⟩ true 180).handleX ∧
      (renderEstacioLike
        ⟨fun _ => true, fun _ => ⟨800, 600⟩, none, fun _ => none, false,
          ⟨70, 70⟩⟩ true 180).handleY
        = (renderEstacioLike
            ⟨fun _ => true, fun _ => ⟨800, 600⟩, none, fun _ => none, true,
              ⟨70, 70⟩⟩ true 180).handleY ∧
      (renderEstacioLike
        ⟨fun _ => true, fun _ => ⟨800, 600⟩, none, fun _ => none, false,
          ⟨70, 70⟩⟩ true 180).cardY
        = (renderEstacioLike
            ⟨fun _ => true, fun _ => ⟨800, 600⟩, none, fun _ => none, true,
              ⟨70, 70⟩⟩ true 180).cardY ∧
      (renderEstacioLike
        ⟨fun _ => true, fun _ => ⟨800, 600⟩, none, fun _ => none, false,
          ⟨70, 70⟩⟩ true 180).kickerY
        = (renderEstacioLike
            ⟨fun _ => true, fun _ => ⟨800, 600⟩, none, fun _ => none, true,
              ⟨70, 70⟩⟩ true 180).kickerY ∧
      (renderEstacioLike
        ⟨fun _ => true, fun _ => ⟨800, 600⟩, none, fun _ => none, false,
          ⟨70, 70⟩⟩ true 180).titleY
        = (renderEstacioLike
            ⟨fun _ => true, fun _ => ⟨800, 600⟩, none, fun _ => none, true,
              ⟨70, 70⟩⟩ true 180).titleY ∧
      (renderEstacioLike
        ⟨fun _ => true, fun _ => ⟨800, 600⟩, none, fun _ => none, false,
          ⟨70, 70⟩⟩ true 180).ctaY
        = (renderEstacioLike
            ⟨fun _ => true, fun _ => ⟨800, 600⟩, none, fun _ => none, true,
              ⟨70, 70⟩⟩ true 180).ctaY ∧
      (renderEstacioLike
        ⟨fun _ => true, fun _ => ⟨800, 600⟩, none, fun _ => none, false,
          ⟨70, 70⟩⟩ true 180).wordmarkX = SAFE_MARGIN - 10 + 16) :=
  ⟨rfl,
    missing_logo_skipped
      ⟨fun _ => true, fun _ => ⟨800, 600⟩, none, fun _ => none, false,
        ⟨70, 70⟩⟩
      ⟨fun _ => true, fun _ => ⟨800, 600⟩, none, fun _ => none, true,
        ⟨70, 70⟩⟩
      none "education" true 180 (some "out/post.jpg") "default.jpg" rfl
      (fun _ => ⟨by norm_num, by norm_num⟩)⟩

/-- One slide dict of `create_carousel`; the loop reads each field with
`.get` and a default. -/
structure Slide where
  template : Option String
  kicker : Option String
  title : Option String
  subtitle : Option String

/-- Python format spec 03d applied to `i`: decimal digits zero-padded to width at least 3. -/
def pad3 (i : Nat) : String :=
  if i < 10 then "00" ++ toString i
  else if i < 100 then "0" ++ toString i
  else toString i

/-- The numbered output path of slide `i` (1-based): the basename, an
underscore, the zero-padded index and the `.jpg` suffix, joined under the
output directory. -/
def slidePath (outDir basename : String) (i : Nat) : String :=
  outDir ++ "/" ++ basename ++ "_" ++ pad3 i ++ ".jpg"

/-- The `for i, slide in enumerate(slides, start=1)` loop of
`create_carousel`: each slide is rendered via `create_post` with the numbered
output path, which `create_post` returns unchanged (`_resolve_output_path`
returns an explicitly supplied path as-is), and the returned paths accumulate
in input order. -/
def createCarouselGo (outDir basename : String) :
    Nat → List Slide → List String
  | _, [] => []
  | i, _ :: rest =>
      slidePath outDir basename i
        :: createCarouselGo outDir basename (i + 1) rest

/-- Model of `ImageEditor.create_carousel`: an empty slide list raises
`ValueError("slides não pode ser vazio")` before any slide is rendered or
any file written; otherwise the slides render sequentially with filenames
numbered from 001.  The first component lists the files written (each
`create_post` call saves exactly its output path); the second is the
returned path list, or the raised error. -/
def createCarousel (outDir basename : String) (slides : List Slide) :
    List String × Except String (List String) :=
  if slides.isEmpty then
    ([], .error "slides não pode ser vazio")
  else
    (createCarouselGo outDir basename 1 slides,
     .ok (createCarouselGo outDir basename 1 slides))

theorem createCarouselGo_eq (outDir basename : String) (slides : List Slide) :
    ∀ i, createCarouselGo outDir basename i slides
      = (List.range' i slides.length).map (slidePath outDir basename) := by
  induction slides with
  | nil => intro i; rfl
  | cons s rest ih =>
      intro i
      show slidePath outDir basename i
          :: createCarouselGo outDir basename (i + 1) rest = _
      rw [ih (i + 1), List.length_cons, List.range'_succ, List.map_cons]

/-- C7: for every non-empty list of n slides, `create_carousel` returns
exactly n output paths, in input order, the i-th (1-based) named
with the basename followed by the zero-padded index `i` and `.jpg`. -/
theorem carousel_paths_numbered (outDir basename : String)
    (slides : List Slide) (hne : slides ≠ []) :
    (createCarousel outDir basename slides).2
      = .ok ((List.range' 1 slides.length).map (slidePath outDir basename)) ∧
    ((List.range' 1 slides.length).map (slidePath outDir basename)).length
      = slides.length := by
  have hemp : slides.isEmpty = false := by
    cases slides with
    | nil => exact absurd rfl hne
    | cons a l => rfl
  unfold createCarousel
  simp only [hemp, Bool.false_eq_true, if_false]
  exact ⟨by rw [createCarouselGo_eq], by simp⟩

/-- Witness for C7: 3 slides yield exactly the 3 paths numbered 001, 002,
003 in input order. -/
theorem carousel_paths_numbered_witness :
    ((createCarousel "out" "carousel"
        [⟨none, none, none, none⟩, ⟨none, none, none, none⟩,
          ⟨none, none, none, none⟩]).2
      = .ok ((List.range' 1 3).map (slidePath "out" "carousel")) ∧
      ((List.range' 1 3).map (slidePath "out" "carousel")).length = 3) ∧
    (List.range' 1 3).map (slidePath "out" "carousel")
      = ["out/carousel_001.jpg", "out/carousel_002.jpg",
         "out/carousel_003.jpg"] :=
  ⟨carousel_paths_numbered "out" "carousel"
      [⟨none, none, none, none⟩, ⟨none, none, none, none⟩,
        ⟨none, none, none, none⟩] (List.cons_ne_nil _ _),
    by decide⟩

/-- C10: `create_carousel` called with an empty slides list raises
`ValueError("slides não pode ser vazio")` before rendering or writing any
file (the write trace is empty), rather than returning an empty path
list. -/
theorem carousel_empty_raises (outDir basename : String) :
    createCarousel outDir basename []
      = ([], .error "slides não pode ser vazio") := rfl

end EduFlow
